import Mathlib

/-!
Verification development for the audio policy routing engine
(`services/audiopolicy/managerdefault/AudioPolicyManager.cpp`).

The definitions below are shallow embeddings of the functions of that file.
Device masks (`audio_devices_t`) are modelled as `Nat` bitmasks with
`AUDIO_DEVICE_NONE = 0`; machine `uint32_t` arithmetic never overflows in
the modelled code paths (latencies and delays are small), so plain `Nat`
is used.  External collaborators (the strategy engine, the transport /
AudioFlinger client interface, the volume-curve tables) are modelled as
explicit parameters, mirroring how the source consumes them as black
boxes.  Calls into the transport are recorded as events or success/failure
parameters so that theorems can speak about them.
-/

/-- Return statuses of the policy manager entry points (`status_t`):
`ok` is `NO_ERROR`, `invalidOperation` is `INVALID_OPERATION`,
`transportError` stands for any error status propagated from the
transport (AudioFlinger) call. -/
inductive PmStatus
  | ok
  | invalidOperation
  | transportError
  deriving DecidableEq, Repr

/-- `routing_strategy` enumeration, in source declaration order
(`STRATEGY_MEDIA` first, `STRATEGY_REROUTING` last). -/
inductive RoutingStrategy
  | media
  | phone
  | sonification
  | sonificationRespectful
  | dtmf
  | enforcedAudible
  | transmittedThroughSpeaker
  | accessibility
  | rerouting
  deriving DecidableEq, Repr

/-- All strategies in enumeration order; `NUM_STRATEGIES = 9`.  Loops of
the source of the form `for (i = 0; i < NUM_STRATEGIES; i++)` iterate this
list. -/
def allStrategies : List RoutingStrategy :=
  [.media, .phone, .sonification, .sonificationRespectful, .dtmf,
   .enforcedAudible, .transmittedThroughSpeaker, .accessibility, .rerouting]

/-- Halve-and-count with explicit fuel (structural recursion, so that
concrete values reduce in the kernel); `n` halvings always exhaust `n`. -/
def popcountFuel : Nat → Nat → Nat
  | 0, _ => 0
  | fuel + 1, n => if n = 0 then 0 else n % 2 + popcountFuel fuel (n / 2)

/-- `popcount` on a `Nat` bitmask (the libc `popcount` the source applies
to `audio_devices_t`): the number of set bits. -/
def popcount (n : Nat) : Nat :=
  popcountFuel n n

/-! ## C1: `getNewOutputDevice` — device-selection priority for outputs -/

/-- Inputs consumed by `AudioPolicyManager::getNewOutputDevice`
(lines 4798-4870).  The fields embed exactly the queries the function
makes:

* `patchFound` — `mAudioPatches.indexOfKey(outputDesc->getPatchHandle()) >= 0`;
* `patchUid` — `patchDesc->mUid` of that patch; `uidCached` — `mUidCached`;
* `curDevice` — `outputDesc->device()`;
* `preferredDevice` — result of
  `findPreferredDevice(outputDesc, STRATEGY_NONE, active, mAvailableOutputDevices)`
  (its `type()` when non-null);
* `forceForSystemEnforced` —
  `mEngine->getForceUse(AUDIO_POLICY_FORCE_FOR_SYSTEM) == AUDIO_POLICY_FORCE_SYSTEM_ENFORCED`;
* `inCall` — `isInCall()`;
* `isStrategyActive s` — `isStrategyActive(outputDesc, s)`;
* `isStrategyActiveOnSameModule s` — `isStrategyActiveOnSameModule(outputDesc, s)`;
* `deviceForStrategy s` — `getDeviceForStrategy(s, fromCache)`. -/
structure OutputSelState where
  patchFound : Bool
  patchUid : Nat
  uidCached : Nat
  curDevice : Nat
  preferredDevice : Option Nat
  forceForSystemEnforced : Bool
  inCall : Bool
  isStrategyActive : RoutingStrategy → Bool
  isStrategyActiveOnSameModule : RoutingStrategy → Bool
  deviceForStrategy : RoutingStrategy → Nat

/-- `AudioPolicyManager::getNewOutputDevice` (lines 4798-4870), translated
branch for branch. -/
def getNewOutputDevice (st : OutputSelState) : Nat :=
  if st.patchFound && st.patchUid != st.uidCached then
    st.curDevice
  else
    match st.preferredDevice with
    | some d => d
    | none =>
      if st.isStrategyActive .enforcedAudible && st.forceForSystemEnforced then
        st.deviceForStrategy .enforcedAudible
      else if st.inCall || st.isStrategyActiveOnSameModule .phone then
        st.deviceForStrategy .phone
      else if st.isStrategyActiveOnSameModule .sonification then
        st.deviceForStrategy .sonification
      else if st.isStrategyActive .enforcedAudible then
        st.deviceForStrategy .enforcedAudible
      else if st.isStrategyActive .accessibility then
        st.deviceForStrategy .accessibility
      else if st.isStrategyActive .sonificationRespectful then
        st.deviceForStrategy .sonificationRespectful
      else if st.isStrategyActive .media then
        st.deviceForStrategy .media
      else if st.isStrategyActive .dtmf then
        st.deviceForStrategy .dtmf
      else if st.isStrategyActive .transmittedThroughSpeaker then
        st.deviceForStrategy .transmittedThroughSpeaker
      else if st.isStrategyActive .rerouting then
        st.deviceForStrategy .rerouting
      else 0

/-- One step of the ordered strategy scan: an activity test and the
strategy whose engine device is returned when the test fires. -/
structure ScanStep where
  test : OutputSelState → Bool
  strategy : RoutingStrategy

/-- The ordered strategy list of the spec
(enforced-audible-if-system-forced, phone/call-active, sonification,
enforced-audible, accessibility, sonification-respectful, media, DTMF,
beacon, rerouting) with the activity test each step uses. -/
def strategyScanList : List ScanStep :=
  [ ⟨fun st => st.isStrategyActive .enforcedAudible && st.forceForSystemEnforced,
      .enforcedAudible⟩,
    ⟨fun st => st.inCall || st.isStrategyActiveOnSameModule .phone, .phone⟩,
    ⟨fun st => st.isStrategyActiveOnSameModule .sonification, .sonification⟩,
    ⟨fun st => st.isStrategyActive .enforcedAudible, .enforcedAudible⟩,
    ⟨fun st => st.isStrategyActive .accessibility, .accessibility⟩,
    ⟨fun st => st.isStrategyActive .sonificationRespectful, .sonificationRespectful⟩,
    ⟨fun st => st.isStrategyActive .media, .media⟩,
    ⟨fun st => st.isStrategyActive .dtmf, .dtmf⟩,
    ⟨fun st => st.isStrategyActive .transmittedThroughSpeaker,
      .transmittedThroughSpeaker⟩,
    ⟨fun st => st.isStrategyActive .rerouting, .rerouting⟩ ]

/-- First-match scan over a list of steps: the engine-provided device of
the first step whose activity test fires, `AUDIO_DEVICE_NONE` (0) when
none does. -/
def scanFirst (st : OutputSelState) : List ScanStep → Nat
  | [] => 0
  | step :: rest =>
      if step.test st then st.deviceForStrategy step.strategy
      else scanFirst st rest

/-- Spec-side view of the fallthrough: scan the ordered strategy list and
return the device of the first active step. -/
def scanFirstActiveDevice (st : OutputSelState) : Nat :=
  scanFirst st strategyScanList

/-- Claim C1: `getNewOutputDevice` follows the priority: (1) a patch
installed by a uid other than the cached system uid freezes the current
device; (2) otherwise an explicit-routing preferred device wins; (3)
otherwise the ordered strategy list is scanned and the engine device of
the first active step is returned; in particular when only strategy MEDIA
is active and no override exists the result is the engine's MEDIA
device. -/
theorem getNewOutputDevice_priority (st : OutputSelState) :
    (st.patchFound = true → st.patchUid ≠ st.uidCached →
      getNewOutputDevice st = st.curDevice) ∧
    (∀ d : Nat, (st.patchFound = true → st.patchUid = st.uidCached) →
      st.preferredDevice = some d → getNewOutputDevice st = d) ∧
    ((st.patchFound = true → st.patchUid = st.uidCached) →
      st.preferredDevice = none →
      getNewOutputDevice st = scanFirstActiveDevice st) ∧
    ((st.patchFound = true → st.patchUid = st.uidCached) →
      st.preferredDevice = none →
      (∀ s, st.isStrategyActive s = (s == RoutingStrategy.media)) →
      st.isStrategyActiveOnSameModule .phone = false →
      st.isStrategyActiveOnSameModule .sonification = false →
      st.inCall = false →
      getNewOutputDevice st = st.deviceForStrategy .media) := by
  have hover : (st.patchFound && st.patchUid != st.uidCached) = true ↔
      st.patchFound = true ∧ st.patchUid ≠ st.uidCached := by
    simp [Bool.and_eq_true, ne_eq]
  refine ⟨?_, ?_, ?_, ?_⟩
  · intro h1 h2
    simp [getNewOutputDevice, hover.mpr ⟨h1, h2⟩]
  · intro d hno hpref
    have : (st.patchFound && st.patchUid != st.uidCached) = false := by
      by_contra hc
      rcases hover.mp (Bool.of_not_eq_false hc) with ⟨h1, h2⟩
      exact h2 (hno h1)
    simp [getNewOutputDevice, this, hpref]
  · intro hno hpref
    have : (st.patchFound && st.patchUid != st.uidCached) = false := by
      by_contra hc
      rcases hover.mp (Bool.of_not_eq_false hc) with ⟨h1, h2⟩
      exact h2 (hno h1)
    simp only [getNewOutputDevice, scanFirstActiveDevice, strategyScanList,
      scanFirst, this, Bool.false_eq_true, if_false, hpref]
  · intro hno hpref hact hphone hson hcall
    have : (st.patchFound && st.patchUid != st.uidCached) = false := by
      by_contra hc
      rcases hover.mp (Bool.of_not_eq_false hc) with ⟨h1, h2⟩
      exact h2 (hno h1)
    simp [getNewOutputDevice, this, hpref, hact, hphone, hson, hcall]

/-- Witness for C1: a concrete state with only MEDIA active and no
override; the selected device is the engine's MEDIA device (37). -/
theorem getNewOutputDevice_priority_witness :
    getNewOutputDevice
      { patchFound := false, patchUid := 0, uidCached := 0, curDevice := 2,
        preferredDevice := none, forceForSystemEnforced := false,
        inCall := false,
        isStrategyActive := fun s => s == RoutingStrategy.media,
        isStrategyActiveOnSameModule := fun _ => false,
        deviceForStrategy := fun s =>
          if s == RoutingStrategy.media then 37 else 5 } = 37 :=
  (getNewOutputDevice_priority _).2.2.2 (fun h => by simp at h) rfl
    (fun _ => rfl) rfl rfl rfl

/-! ## C3: `setOutputDevice` — device bitmask stays inside the supported set -/

/-- The fields of `SwAudioOutputDescriptor` read and written by the
device-filtering prologue of `AudioPolicyManager::setOutputDevice`
(lines 5174-5190): the current device bitmask `mDevice` and the
profile's supported-device bitmask. -/
structure OutputDevFields where
  mDevice : Nat
  supportedDevices : Nat
  deriving DecidableEq, Repr

/-- Device-update prologue of `AudioPolicyManager::setOutputDevice` on a
non-duplicated output (lines 5174-5190): a requested device that is not
`AUDIO_DEVICE_NONE` and shares no bit with the supported set returns
immediately (second component `false`); otherwise the request is filtered
against the supported set and stored in `mDevice` when non-empty.  (The
rest of the function — mute sequencing, patch installation, volume
re-application — does not touch `mDevice` and is modelled separately for
C6, C7 and C2.) -/
def setOutputDevice_deviceFilter (desc : OutputDevFields) (device : Nat) :
    OutputDevFields × Bool :=
  if device ≠ 0 ∧ Nat.land device desc.supportedDevices = 0 then
    (desc, false)
  else if Nat.land device desc.supportedDevices ≠ 0 then
    ({ desc with mDevice := Nat.land device desc.supportedDevices }, true)
  else
    (desc, true)

/-- Intersecting twice with the same mask is the same as intersecting
once. -/
theorem land_land_self (a b : Nat) :
    Nat.land (Nat.land a b) b = Nat.land a b := by
  show (a &&& b) &&& b = a &&& b
  apply Nat.eq_of_testBit_eq
  intro i
  simp [Nat.testBit_land, Bool.and_assoc]

/-- Claim C3: after any run of the `setOutputDevice` device update on a
non-duplicated output, the stored device bitmask is a subset of the
supported bitmask: an unsupported nonzero request returns immediately
without change, and otherwise the request is intersected with the
supported set before being stored. -/
theorem setOutputDevice_device_subset (desc : OutputDevFields) (device : Nat)
    (hinv : Nat.land desc.mDevice desc.supportedDevices = desc.mDevice) :
    (Nat.land (setOutputDevice_deviceFilter desc device).1.mDevice
        (setOutputDevice_deviceFilter desc device).1.supportedDevices =
      (setOutputDevice_deviceFilter desc device).1.mDevice) ∧
    (device ≠ 0 → Nat.land device desc.supportedDevices = 0 →
      setOutputDevice_deviceFilter desc device = (desc, false)) ∧
    (Nat.land device desc.supportedDevices ≠ 0 →
      (setOutputDevice_deviceFilter desc device).1.mDevice =
        Nat.land device desc.supportedDevices) := by
  refine ⟨?_, ?_, ?_⟩
  · unfold setOutputDevice_deviceFilter
    split_ifs with h1 h2
    · exact hinv
    · exact land_land_self device desc.supportedDevices
    · exact hinv
  · intro h1 h2
    unfold setOutputDevice_deviceFilter
    rw [if_pos ⟨h1, h2⟩]
  · intro h
    unfold setOutputDevice_deviceFilter
    rw [if_neg (fun hc => h hc.2), if_pos h]

/-- Witness for C3: requested mask `0b110` against supported mask `0b011`
stores the intersection `0b010`, a subset of the supported set. -/
theorem setOutputDevice_device_subset_witness :
    Nat.land 1 3 = 1 ∧
    (Nat.land (setOutputDevice_deviceFilter ⟨1, 3⟩ 6).1.mDevice
        (setOutputDevice_deviceFilter ⟨1, 3⟩ 6).1.supportedDevices =
      (setOutputDevice_deviceFilter ⟨1, 3⟩ 6).1.mDevice) ∧
    (setOutputDevice_deviceFilter ⟨1, 3⟩ 6).1.mDevice = Nat.land 6 3 :=
  ⟨by decide, (setOutputDevice_device_subset ⟨1, 3⟩ 6 (by decide)).1,
    (setOutputDevice_device_subset ⟨1, 3⟩ 6 (by decide)).2.2 (by decide)⟩

/-! ## C4: `setStreamMute` — mute-counter invariant -/

/-- Environment queried by `AudioPolicyManager::setStreamMute`
(lines 5625-5661) for one `(output, stream)` pair:

* `canBeMuted` — `mVolumeCurves->canBeMuted(stream)`;
* `notEnforcedOrForceNone` — `stream != AUDIO_STREAM_ENFORCED_AUDIBLE ||
  getForceUse(AUDIO_POLICY_FORCE_FOR_SYSTEM) == AUDIO_POLICY_FORCE_NONE`;
* `volumeIndex` — `mVolumeCurves->getVolumeIndex(stream, device)`, the
  index restored on the final unmute. -/
structure MuteVolumeEnv where
  canBeMuted : Bool
  notEnforcedOrForceNone : Bool
  volumeIndex : Int

/-- `AudioPolicyManager::setStreamMute` (lines 5625-5661), restricted to
one stream type on one output.  The state is the mute counter (signed, as
the C++ `int` field `mMuteCount[stream]`); the second component records
the `checkAndSetVolume` call made, if any: `some 0` when volume zero is
applied on muting, `some volumeIndex` when the stored index is restored
on the final unmute. -/
def setStreamMute (env : MuteVolumeEnv) (muteCount : Int) (muteOn : Bool) :
    Int × Option Int :=
  if muteOn then
    let action : Option Int :=
      if muteCount = 0 ∧ (env.canBeMuted ∧ env.notEnforcedOrForceNone) then
        some 0
      else none
    (muteCount + 1, action)
  else
    if muteCount = 0 then
      (muteCount, none)
    else if muteCount - 1 = 0 then
      (muteCount - 1, some env.volumeIndex)
    else
      (muteCount - 1, none)

theorem setStreamMute_fst (env : MuteVolumeEnv) (c : Int) (b : Bool) :
    (setStreamMute env c b).1 = if b then c + 1 else if c = 0 then c else c - 1 := by
  cases b
  · simp only [setStreamMute, Bool.false_eq_true, if_false]
    split_ifs <;> rfl
  · simp [setStreamMute]

theorem setStreamMute_snd_mute (env : MuteVolumeEnv) (c : Int) :
    (setStreamMute env c true).2 =
      if c = 0 ∧ (env.canBeMuted ∧ env.notEnforcedOrForceNone) then some 0
      else none := by
  simp [setStreamMute]

theorem setStreamMute_snd_unmute (env : MuteVolumeEnv) (c : Int) :
    (setStreamMute env c false).2 =
      if c = 0 then none
      else if c - 1 = 0 then some env.volumeIndex else none := by
  simp only [setStreamMute, Bool.false_eq_true, if_false]
  split_ifs <;> rfl

/-- The mute counter after a sequence of `setStreamMute` calls (`true` =
mute, `false` = unmute), starting from counter `c`. -/
def runMuteTrace (env : MuteVolumeEnv) (c : Int) (calls : List Bool) : Int :=
  calls.foldl (fun c b => (setStreamMute env c b).1) c

/-- Spec-side count of unmatched mute calls in a trace: a mute adds one,
an unmute cancels the most recent unmatched mute if there is one. -/
def unmatchedMutes (calls : List Bool) : Nat :=
  calls.foldl (fun n b => if b then n + 1 else n - 1) 0

theorem runMuteTrace_eq_aux (env : MuteVolumeEnv) (calls : List Bool) (c : Nat) :
    runMuteTrace env (c : Int) calls =
      (calls.foldl (fun n b => if b then n + 1 else n - 1) c : Nat) := by
  induction calls generalizing c with
  | nil => simp [runMuteTrace]
  | cons b rest ih =>
    have hstep : (setStreamMute env (c : Int) b).1 =
        (((if b then c + 1 else c - 1) : Nat) : Int) := by
      rw [setStreamMute_fst]
      cases b
      · rcases Nat.eq_zero_or_pos c with hc | hc
        · simp [hc]
        · have hne : (c : Int) ≠ 0 := by
            simpa using Nat.pos_iff_ne_zero.mp hc
          simp only [Bool.false_eq_true, if_false, if_neg hne]
          omega
      · simp
    simp only [runMuteTrace, List.foldl_cons, hstep]
    simpa [runMuteTrace] using ih (if b then c + 1 else c - 1)

/-- Claim C4: the mute counter equals the number of unmatched mute calls
and never goes negative; a mute call increments the counter and applies
volume zero only on the 0-to-1 transition; an unmute call with a positive
counter decrements it, restoring volume only on the 1-to-0 transition;
an unmute with a zero counter changes nothing. -/
theorem setStreamMute_count_invariant (env : MuteVolumeEnv) (c : Int) :
    (∀ b, 0 ≤ c → 0 ≤ (setStreamMute env c b).1) ∧
    ((setStreamMute env c true).1 = c + 1 ∧
      (∀ v, (setStreamMute env c true).2 = some v → c = 0)) ∧
    (0 < c → (setStreamMute env c false).1 = c - 1 ∧
      (∀ v, (setStreamMute env c false).2 = some v → c = 1)) ∧
    (c = 0 → setStreamMute env c false = (c, none)) ∧
    (∀ calls, runMuteTrace env 0 calls = (unmatchedMutes calls : Int)) := by
  refine ⟨?_, ⟨?_, ?_⟩, ?_, ?_, ?_⟩
  · intro b h0
    rw [setStreamMute_fst]
    split_ifs <;> omega
  · rw [setStreamMute_fst]; rfl
  · intro v
    rw [setStreamMute_snd_mute]
    split_ifs with h
    · intro _; exact h.1
    · intro hv; simp at hv
  · intro hpos
    have hne : c ≠ 0 := by omega
    constructor
    · rw [setStreamMute_fst]
      simp [hne]
    · intro v
      rw [setStreamMute_snd_unmute, if_neg hne]
      split_ifs with h2
      · intro _; omega
      · intro hv; simp at hv
  · intro h0
    simp [setStreamMute, h0]
  · intro calls
    simpa [unmatchedMutes] using runMuteTrace_eq_aux env calls 0

/-- Witness for C4: a trace mute, mute, unmute, unmute, unmute leaves the
counter at zero (the extra unmute is a no-op), and a single unmute at
counter zero changes nothing. -/
theorem setStreamMute_count_invariant_witness :
    (0 : Int) < 1 ∧
    runMuteTrace ⟨true, true, 7⟩ 0 [true, true, false, false, false] =
      (unmatchedMutes [true, true, false, false, false] : Int) ∧
    (setStreamMute ⟨true, true, 7⟩ 1 false).1 = 1 - 1 ∧
    setStreamMute ⟨true, true, 7⟩ 0 false = (0, none) :=
  ⟨by decide,
    (setStreamMute_count_invariant ⟨true, true, 7⟩ 0).2.2.2.2 _,
    ((setStreamMute_count_invariant ⟨true, true, 7⟩ 1).2.2.1 (by decide)).1,
    (setStreamMute_count_invariant ⟨true, true, 7⟩ 0).2.2.2.1 rfl⟩

/-! ## C2 and C7: audio-patch lifecycle (`installPatch`, `resetOutputDevice`,
`resetInputDevice`) -/

/-- One record of the `mAudioPatches` collection (`class AudioPatch`):
`handle` is the locally generated `mHandle` (unique, from a static
counter), `afPatchHandle` the transport-level handle `mAfPatchHandle`,
`uid` the requesting identity `mUid`, and `patch` stands for the contents
of the `struct audio_patch` payload (opaque here). -/
structure AudioPatchRec where
  handle : Nat
  afPatchHandle : Nat
  uid : Nat
  patch : Nat
  deriving DecidableEq, Repr

/-- The patch-related state of the policy manager: the `mAudioPatches`
collection (keyed by `handle`) and the next value of the static unique-id
counter used by `AudioPatch::AudioPatch`. -/
structure PatchState where
  audioPatches : List AudioPatchRec
  nextUniqueId : Nat
  deriving DecidableEq, Repr

/-- The patch-handle field of an `AudioIODescriptorInterface`
(`getPatchHandle`/`setPatchHandle`); `0` is `AUDIO_PATCH_HANDLE_NONE`. -/
structure IoDescriptor where
  patchHandle : Nat
  deriving DecidableEq, Repr

/-- Result of the inner `AudioPolicyManager::installPatch` overload
(lines 6015-6049). -/
structure InstallResult where
  state : PatchState
  status : PmStatus
  patchDesc : Option AudioPatchRec
  deriving DecidableEq, Repr

/-- Inner `AudioPolicyManager::installPatch` (lines 6015-6049).
`existing` is the record found at the caller-computed index
(`mAudioPatches.valueAt(index)` when `index >= 0`, none otherwise);
`createResult` is the outcome of
`mpClientInterface->createAudioPatch(patch, &afPatchHandle, delayMs)`:
`some afH` on `NO_ERROR` with the transport handle it returned, `none` on
failure.  On success the existing record is updated in place — only
`mPatch` and `mAfPatchHandle` are assigned, so the local handle and the
original requesting uid are preserved — or, when none exists, a fresh
record with a new unique handle and the caller's uid is added; on
failure nothing is touched. -/
def installPatch (st : PatchState) (existing : Option AudioPatchRec)
    (patch uid : Nat) (createResult : Option Nat) : InstallResult :=
  match createResult with
  | none => ⟨st, .transportError, existing⟩
  | some afH =>
    match existing with
    | none =>
      let pd : AudioPatchRec := ⟨st.nextUniqueId, afH, uid, patch⟩
      ⟨⟨st.audioPatches ++ [pd], st.nextUniqueId + 1⟩, .ok, some pd⟩
    | some pd =>
      let pd' : AudioPatchRec := ⟨pd.handle, afH, pd.uid, patch⟩
      ⟨⟨st.audioPatches.map (fun q => if q.handle = pd.handle then pd' else q),
          st.nextUniqueId⟩, .ok, some pd'⟩

/-- Lookup of `mAudioPatches.indexOfKey`/`valueAt` by local patch
handle. -/
def findPatch (st : PatchState) (h : Nat) : Option AudioPatchRec :=
  st.audioPatches.find? (fun p => p.handle == h)

/-- Descriptor overload of `AudioPolicyManager::installPatch`
(lines 5997-6013): the key is the caller-supplied handle when it is not
`AUDIO_PATCH_HANDLE_NONE`, the descriptor's attached handle otherwise;
on transport success the descriptor's patch handle is updated to the
new/updated record's handle. -/
def installPatchForIo (st : PatchState) (io : IoDescriptor)
    (callerHandle : Option Nat) (patch uid : Nat)
    (createResult : Option Nat) : PatchState × IoDescriptor × PmStatus :=
  let key := match callerHandle with
    | some h => if h ≠ 0 then h else io.patchHandle
    | none => io.patchHandle
  let r := installPatch st (findPatch st key) patch uid createResult
  match r.status, r.patchDesc with
  | .ok, some pd => (r.state, { io with patchHandle := pd.handle }, .ok)
  | s, _ => (r.state, io, s)

theorem find?_eq_some_mem {l : List AudioPatchRec} {h : Nat}
    {p : AudioPatchRec} (hf : l.find? (fun q => q.handle == h) = some p) :
    p ∈ l ∧ p.handle = h :=
  ⟨List.mem_of_find?_eq_some hf, by
    have := List.find?_some hf
    simpa using this⟩

/-- Claim C2: `installPatch` keeps at most one patch record per stream:
on transport failure nothing changes; when a patch is already attached a
successful install updates that record in place (the set of local handles
is unchanged, no record is added, and the record's original requesting
uid survives the update) and re-attaches the same handle to the
descriptor; only when no patch is attached is a new record appended, and
its fresh handle is stored in the descriptor. -/
theorem installPatch_no_duplicate (st : PatchState) (io : IoDescriptor)
    (callerHandle : Option Nat) (patch uid : Nat) (createResult : Option Nat) :
    (createResult = none →
      installPatchForIo st io callerHandle patch uid createResult =
        (st, io, .transportError)) ∧
    (∀ afH pd, createResult = some afH → callerHandle = none →
      findPatch st io.patchHandle = some pd →
      (installPatchForIo st io callerHandle patch uid createResult).1.audioPatches.map
          (fun q => q.handle) = st.audioPatches.map (fun q => q.handle) ∧
      (installPatchForIo st io callerHandle patch uid createResult).1.audioPatches.length =
          st.audioPatches.length ∧
      (installPatchForIo st io callerHandle patch uid createResult).2.1.patchHandle =
          pd.handle ∧
      ⟨pd.handle, afH, pd.uid, patch⟩ ∈
        (installPatchForIo st io callerHandle patch uid createResult).1.audioPatches) ∧
    (∀ afH, createResult = some afH → callerHandle = none →
      findPatch st io.patchHandle = none →
      (installPatchForIo st io callerHandle patch uid createResult).1.audioPatches =
          st.audioPatches ++ [⟨st.nextUniqueId, afH, uid, patch⟩] ∧
      (installPatchForIo st io callerHandle patch uid createResult).2.1.patchHandle =
          st.nextUniqueId) := by
  refine ⟨?_, ?_, ?_⟩
  · intro hc
    subst hc
    simp [installPatchForIo, installPatch]
  · intro afH pd hc hcall hfind
    subst hc; subst hcall
    have hkey : (installPatchForIo st io none patch uid (some afH)) =
        (⟨st.audioPatches.map
            (fun q => if q.handle = pd.handle then ⟨pd.handle, afH, pd.uid, patch⟩ else q),
          st.nextUniqueId⟩,
         { io with patchHandle := pd.handle }, .ok) := by
      simp [installPatchForIo, installPatch, hfind]
    rw [hkey]
    refine ⟨?_, by simp, rfl, ?_⟩
    · simp only [List.map_map]
      apply List.map_congr_left
      intro q _
      by_cases hq : q.handle = pd.handle <;> simp [hq]
    · rcases find?_eq_some_mem hfind with ⟨hmem, _⟩
      have : (if pd.handle = pd.handle then
          (⟨pd.handle, afH, pd.uid, patch⟩ : AudioPatchRec) else pd) ∈
          st.audioPatches.map
            (fun q => if q.handle = pd.handle then ⟨pd.handle, afH, pd.uid, patch⟩ else q) :=
        List.mem_map_of_mem _ hmem
      simpa using this
  · intro afH hc hcall hfind
    subst hc; subst hcall
    simp [installPatchForIo, installPatch, hfind]

/-- Witness for C2: installing over an attached patch (handle 5) with
caller uid 1041 updates in place — the handle list is unchanged, the
record keeps its original uid 1000 — and re-attaches handle 5. -/
theorem installPatch_no_duplicate_witness :
    (some (7 : Nat) = some 7) ∧
    findPatch ⟨[⟨5, 11, 1000, 3⟩], 6⟩ 5 = some ⟨5, 11, 1000, 3⟩ ∧
    ((installPatchForIo ⟨[⟨5, 11, 1000, 3⟩], 6⟩ ⟨5⟩ none 4 1041
        (some 7)).1.audioPatches.map (fun q => q.handle) =
      ([⟨5, 11, 1000, 3⟩] : List AudioPatchRec).map (fun q => q.handle) ∧
    (installPatchForIo ⟨[⟨5, 11, 1000, 3⟩], 6⟩ ⟨5⟩ none 4 1041
        (some 7)).1.audioPatches.length =
      ([⟨5, 11, 1000, 3⟩] : List AudioPatchRec).length ∧
    (installPatchForIo ⟨[⟨5, 11, 1000, 3⟩], 6⟩ ⟨5⟩ none 4 1041
        (some 7)).2.1.patchHandle = 5 ∧
    (⟨5, 7, 1000, 4⟩ : AudioPatchRec) ∈
      (installPatchForIo ⟨[⟨5, 11, 1000, 3⟩], 6⟩ ⟨5⟩ none 4 1041
        (some 7)).1.audioPatches) := by
  refine ⟨rfl, by decide, ?_⟩
  have h := (installPatch_no_duplicate ⟨[⟨5, 11, 1000, 3⟩], 6⟩ ⟨5⟩ none 4 1041
      (some 7)).2.1 7 ⟨5, 11, 1000, 3⟩ rfl rfl (by decide)
  exact h

/-- Result of `resetOutputDevice` / `resetInputDevice`: the new patch
state, the new descriptor, the transport release request that was issued
(`some (afHandle, delayMs)` when `releaseAudioPatch` was called), and the
returned status. -/
structure ResetResult where
  state : PatchState
  io : IoDescriptor
  released : Option (Nat × Nat)
  status : PmStatus
  deriving DecidableEq, Repr

/-- `AudioPolicyManager::resetOutputDevice` (lines 5258-5279): look the
patch up by the caller-supplied handle, else by the descriptor's attached
handle; when none is found return `INVALID_OPERATION` untouched; else ask
the transport to release `mAfPatchHandle` (with `delayMs`), clear the
descriptor's patch handle, remove the local record and return the
transport's status (`releaseStatus`). -/
def resetOutputDevice (st : PatchState) (io : IoDescriptor)
    (callerHandle : Option Nat) (delayMs : Nat) (releaseStatus : PmStatus) :
    ResetResult :=
  let key := callerHandle.getD io.patchHandle
  match findPatch st key with
  | none => ⟨st, io, none, .invalidOperation⟩
  | some pd =>
      ⟨⟨st.audioPatches.filter (fun p => p.handle ≠ pd.handle), st.nextUniqueId⟩,
        { io with patchHandle := 0 }, some (pd.afPatchHandle, delayMs),
        releaseStatus⟩

/-- `AudioPolicyManager::resetInputDevice` (lines 5312-5333): identical
shape to `resetOutputDevice`, with the transport release issued with
delay 0. -/
def resetInputDevice (st : PatchState) (io : IoDescriptor)
    (callerHandle : Option Nat) (releaseStatus : PmStatus) : ResetResult :=
  let key := callerHandle.getD io.patchHandle
  match findPatch st key with
  | none => ⟨st, io, none, .invalidOperation⟩
  | some pd =>
      ⟨⟨st.audioPatches.filter (fun p => p.handle ≠ pd.handle), st.nextUniqueId⟩,
        { io with patchHandle := 0 }, some (pd.afPatchHandle, 0),
        releaseStatus⟩

/-- Claim C7: releasing a stream's patch when none is attached returns an
error and changes no state (no transport call either); when a patch is
attached the transport is asked to release its low-level handle, the
descriptor's patch handle is cleared, and the local record is removed
from the collection — for both the output and the input variant. -/
theorem resetDevice_release (st : PatchState) (io : IoDescriptor)
    (callerHandle : Option Nat) (delayMs : Nat) (releaseStatus : PmStatus) :
    (findPatch st (callerHandle.getD io.patchHandle) = none →
      resetOutputDevice st io callerHandle delayMs releaseStatus =
        ⟨st, io, none, .invalidOperation⟩ ∧
      resetInputDevice st io callerHandle releaseStatus =
        ⟨st, io, none, .invalidOperation⟩) ∧
    (∀ pd, findPatch st (callerHandle.getD io.patchHandle) = some pd →
      (resetOutputDevice st io callerHandle delayMs releaseStatus).released =
        some (pd.afPatchHandle, delayMs) ∧
      (resetOutputDevice st io callerHandle delayMs releaseStatus).io.patchHandle = 0 ∧
      (∀ q ∈ (resetOutputDevice st io callerHandle delayMs
          releaseStatus).state.audioPatches, q.handle ≠ pd.handle) ∧
      (∀ q ∈ st.audioPatches, q.handle ≠ pd.handle →
        q ∈ (resetOutputDevice st io callerHandle delayMs
          releaseStatus).state.audioPatches) ∧
      (resetOutputDevice st io callerHandle delayMs releaseStatus).status =
        releaseStatus ∧
      (resetInputDevice st io callerHandle releaseStatus).released =
        some (pd.afPatchHandle, 0) ∧
      (resetInputDevice st io callerHandle releaseStatus).io.patchHandle = 0 ∧
      (∀ q ∈ (resetInputDevice st io callerHandle
          releaseStatus).state.audioPatches, q.handle ≠ pd.handle)) := by
  constructor
  · intro hnone
    constructor <;> simp [resetOutputDevice, resetInputDevice, hnone]
  · intro pd hfind
    have hout : resetOutputDevice st io callerHandle delayMs releaseStatus =
        ⟨⟨st.audioPatches.filter (fun p => p.handle ≠ pd.handle), st.nextUniqueId⟩,
          { io with patchHandle := 0 }, some (pd.afPatchHandle, delayMs),
          releaseStatus⟩ := by
      simp [resetOutputDevice, hfind]
    have hin : resetInputDevice st io callerHandle releaseStatus =
        ⟨⟨st.audioPatches.filter (fun p => p.handle ≠ pd.handle), st.nextUniqueId⟩,
          { io with patchHandle := 0 }, some (pd.afPatchHandle, 0),
          releaseStatus⟩ := by
      simp [resetInputDevice, hfind]
    rw [hout, hin]
    refine ⟨rfl, rfl, ?_, ?_, rfl, rfl, rfl, ?_⟩
    · intro q hq
      have := List.of_mem_filter hq
      simpa using this
    · intro q hq hne
      exact List.mem_filter.mpr ⟨hq, by simpa using hne⟩
    · intro q hq
      have := List.of_mem_filter hq
      simpa using this

/-- Witness for C7: with no patch attached (empty collection) the reset
is a no-op error; with patch 5 attached it releases transport handle 11,
clears the descriptor and drops the record. -/
theorem resetDevice_release_witness :
    (findPatch ⟨[], 1⟩ 5 = none →
      resetOutputDevice ⟨[], 1⟩ ⟨5⟩ none 10 .ok = ⟨⟨[], 1⟩, ⟨5⟩, none, .invalidOperation⟩ ∧
      resetInputDevice ⟨[], 1⟩ ⟨5⟩ none .ok = ⟨⟨[], 1⟩, ⟨5⟩, none, .invalidOperation⟩) ∧
    ((resetOutputDevice ⟨[⟨5, 11, 1000, 3⟩], 6⟩ ⟨5⟩ none 10 .ok).released =
        some (11, 10) ∧
      (resetOutputDevice ⟨[⟨5, 11, 1000, 3⟩], 6⟩ ⟨5⟩ none 10 .ok).io.patchHandle = 0) := by
  refine ⟨fun h => (resetDevice_release ⟨[], 1⟩ ⟨5⟩ none 10 .ok).1 h, ?_⟩
  have h := (resetDevice_release ⟨[⟨5, 11, 1000, 3⟩], 6⟩ ⟨5⟩ none 10 .ok).2
      ⟨5, 11, 1000, 3⟩ (by decide)
  exact ⟨h.1, h.2.1⟩

/-! ## C10: `checkAndSetVolume` — voice-call / Bluetooth-SCO guard -/

/-- `audio_stream_type_t` values used by the volume path. -/
inductive AudioStreamType
  | voiceCall
  | system
  | ring
  | music
  | alarm
  | notification
  | bluetoothSco
  | enforcedAudible
  | dtmf
  | tts
  | accessibility
  deriving DecidableEq, Repr

/-- `AUDIO_POLICY_FORCE_BT_SCO` value of `audio_policy_forced_cfg_t`. -/
def AUDIO_POLICY_FORCE_BT_SCO : Nat := 3

/-- `AUDIO_DEVICE_OUT_ALL_SCO` mask: `AUDIO_DEVICE_OUT_BLUETOOTH_SCO |
AUDIO_DEVICE_OUT_BLUETOOTH_SCO_HEADSET |
AUDIO_DEVICE_OUT_BLUETOOTH_SCO_CARKIT` = 0x10 | 0x20 | 0x40. -/
def AUDIO_DEVICE_OUT_ALL_SCO : Nat := 0x70

/-- Environment of `AudioPolicyManager::checkAndSetVolume`
(lines 5537-5591) for one output descriptor:

* `muteCount s` — `outputDesc->mMuteCount[s]`;
* `forceUseForComm` — `mEngine->getForceUse(AUDIO_POLICY_FORCE_FOR_COMMUNICATION)`;
* `outputDevice` — `outputDesc->device()`, substituted when the `device`
  argument is `AUDIO_DEVICE_NONE`;
* `isFixedVolume d` — `outputDesc->isFixedVolume(device)`;
* `computeVolume s i d` — the volume-curve evaluation `computeVolume`,
  consumed as a black-box function (decibels idealized as `Int`). -/
structure VolumeEnv where
  muteCount : AudioStreamType → Nat
  forceUseForComm : Nat
  outputDevice : Nat
  isFixedVolume : Nat → Bool
  computeVolume : AudioStreamType → Int → Nat → Int

/-- Result of `checkAndSetVolume`: the returned status and the volume
passed to `outputDesc->setVolume` when the call is reached. -/
structure CheckSetVolumeResult where
  status : PmStatus
  appliedVolume : Option Int
  deriving DecidableEq, Repr

/-- `AudioPolicyManager::checkAndSetVolume` (lines 5537-5591) up to the
`setVolume` call (the trailing voice-volume propagation to the transport
touches no policy state relevant here): a muted stream returns `NO_ERROR`
without touching the volume; setting VOICE_CALL volume while
communication is forced to Bluetooth SCO, or BLUETOOTH_SCO volume while
it is not, returns `INVALID_OPERATION`; otherwise the computed volume
(forced to 0 dB for fixed-volume outputs and for voice/SCO streams on an
SCO device) is applied. -/
def checkAndSetVolume (env : VolumeEnv) (stream : AudioStreamType)
    (index : Int) (device : Nat) : CheckSetVolumeResult :=
  if env.muteCount stream ≠ 0 then
    ⟨.ok, none⟩
  else if (stream = .voiceCall ∧ env.forceUseForComm = AUDIO_POLICY_FORCE_BT_SCO) ∨
      (stream = .bluetoothSco ∧ env.forceUseForComm ≠ AUDIO_POLICY_FORCE_BT_SCO) then
    ⟨.invalidOperation, none⟩
  else
    let device' := if device = 0 then env.outputDevice else device
    let volumeDb := env.computeVolume stream index device'
    let volumeDb :=
      if env.isFixedVolume device' ∨
          ((stream = .voiceCall ∨ stream = .bluetoothSco) ∧
            Nat.land device' AUDIO_DEVICE_OUT_ALL_SCO ≠ 0) then
        0
      else volumeDb
    ⟨.ok, some volumeDb⟩

/-- Claim C10: with the stream not muted, `checkAndSetVolume` returns
`INVALID_OPERATION` and applies no volume exactly when it is asked to set
VOICE_CALL volume under forced Bluetooth-SCO communication or
BLUETOOTH_SCO volume without it; in every other non-muted case it
proceeds to apply the computed volume. -/
theorem checkAndSetVolume_sco_guard (env : VolumeEnv)
    (stream : AudioStreamType) (index : Int) (device : Nat)
    (hmute : env.muteCount stream = 0) :
    (((stream = .voiceCall ∧ env.forceUseForComm = AUDIO_POLICY_FORCE_BT_SCO) ∨
      (stream = .bluetoothSco ∧ env.forceUseForComm ≠ AUDIO_POLICY_FORCE_BT_SCO)) →
      checkAndSetVolume env stream index device = ⟨.invalidOperation, none⟩) ∧
    (¬ ((stream = .voiceCall ∧ env.forceUseForComm = AUDIO_POLICY_FORCE_BT_SCO) ∨
      (stream = .bluetoothSco ∧ env.forceUseForComm ≠ AUDIO_POLICY_FORCE_BT_SCO)) →
      (checkAndSetVolume env stream index device).status = .ok ∧
      ∃ v, (checkAndSetVolume env stream index device).appliedVolume = some v) := by
  constructor
  · intro hguard
    simp [checkAndSetVolume, hmute, hguard]
  · intro hguard
    unfold checkAndSetVolume
    rw [if_neg (by simp [hmute]), if_neg hguard]
    exact ⟨rfl, ⟨_, rfl⟩⟩

/-- Witness for C10: with communication forced to Bluetooth SCO, setting
the VOICE_CALL stream volume fails with `INVALID_OPERATION` and no
volume is applied. -/
theorem checkAndSetVolume_sco_guard_witness :
    checkAndSetVolume
      { muteCount := fun _ => 0, forceUseForComm := AUDIO_POLICY_FORCE_BT_SCO,
        outputDevice := 2, isFixedVolume := fun _ => false,
        computeVolume := fun _ i _ => i }
      .voiceCall 5 2 = ⟨.invalidOperation, none⟩ :=
  (checkAndSetVolume_sco_guard _ .voiceCall 5 2 rfl).1 (Or.inl ⟨rfl, rfl⟩)

/-! ## C5: `startInput` — capture-concurrency arbitration -/

/-- `AUDIO_SOURCE_HOTWORD` value of `audio_source_t`. -/
def AUDIO_SOURCE_HOTWORD : Nat := 1999

/-- The concurrency bits or-ed into `*concurrency` by `startInput`
(`API_INPUT_CONCURRENCY_*`). -/
inductive ConcurrencyFlag
  | call
  | capture
  | hotword
  | preempt
  deriving DecidableEq, Repr

/-- What `startInput` reads from one competing active input descriptor
(lines 2020-2050): its id, the highest-priority active source
`inputSource(true)`, and the session ids it has preempted
(`hasPreemptedSession`). -/
structure ActiveInputDesc where
  inputId : Nat
  activeSource : Nat
  preemptedSessions : List Nat
  deriving DecidableEq, Repr

/-- What the concurrency loop reads from the new client and its target
input: the client's `AUDIO_INPUT_FLAG_MMAP_NOIRQ` flag bit, its source,
its session, and the target input's id (`inputDesc->getId()`). -/
structure StartClient where
  flagsMmapNoIrq : Bool
  source : Nat
  session : Nat
  targetInputId : Nat
  deriving DecidableEq, Repr

/-- Body of the source-exclusion loop of `AudioPolicyManager::startInput`
(lines 2020-2050) for one competing active input: `none` when the loop
continues, `some flag` when it fails with that concurrency flag and
`INVALID_OPERATION`.  A competing input is skipped when the client
requests an MMAP no-IRQ stream and the competitor is that very stream. -/
def concurrencyConflict (client : StartClient) (activeDesc : ActiveInputDesc) :
    Option ConcurrencyFlag :=
  if client.flagsMmapNoIrq && activeDesc.inputId == client.targetInputId then
    none
  else if client.source == AUDIO_SOURCE_HOTWORD then
    if activeDesc.activeSource == AUDIO_SOURCE_HOTWORD then
      if activeDesc.preemptedSessions.contains client.session then
        some .hotword
      else none
    else some .capture
  else
    if activeDesc.activeSource != AUDIO_SOURCE_HOTWORD then
      some .capture
    else none

/-- The whole loop: the first competing active input that conflicts
decides the failure, otherwise the scan passes. -/
def startInputConcurrencyCheck (client : StartClient)
    (activeInputs : List ActiveInputDesc) : Option ConcurrencyFlag :=
  activeInputs.findSome? (concurrencyConflict client)

/-- Continuation of `startInput` after the loop: on a conflict the
function returns `INVALID_OPERATION` before `setClientActive(client,
true)` is reached; otherwise control proceeds to the hotword-preemption
phase and the activation of the client. -/
def startInputConcurrencyPhase (client : StartClient)
    (activeInputs : List ActiveInputDesc) : PmStatus × Bool :=
  match startInputConcurrencyCheck client activeInputs with
  | some _ => (.invalidOperation, false)
  | none => (.ok, true)

/-- Counterexample to claim C5 as stated: the claim says a new HOTWORD
request fails with the HOTWORD flag only if the competing active input
has *not* already been preempted for this session id; in the code the
failure happens exactly when the competing hotword input *has* preempted
this session (`hasPreemptedSession(session)` true).  Concretely: client
session 7, competitor active on HOTWORD with session 7 in its preempted
set — the code fails with the HOTWORD flag even though the session was
preempted. -/
theorem startInput_hotword_preempted_fails :
    startInputConcurrencyCheck ⟨false, AUDIO_SOURCE_HOTWORD, 7, 1⟩
        [⟨2, AUDIO_SOURCE_HOTWORD, [7]⟩] = some .hotword ∧
    (⟨2, AUDIO_SOURCE_HOTWORD, [7]⟩ : ActiveInputDesc).preemptedSessions.contains
        (⟨false, AUDIO_SOURCE_HOTWORD, 7, 1⟩ : StartClient).session = true := by
  decide

/-- Claim C5 (amended): for a competing active input that is not the
reused MMAP no-IRQ stream, a new HOTWORD request fails with the CAPTURE
flag when the competing active source is not HOTWORD, fails with the
HOTWORD flag exactly when the competing source is HOTWORD and that input
*has* already preempted this session id, and a new non-HOTWORD request
fails with the CAPTURE flag when the competing source is not HOTWORD;
whenever the scan reports a conflict, `startInput` returns
`INVALID_OPERATION` and the new client is not activated. -/
theorem startInput_concurrency_rules (client : StartClient)
    (a : ActiveInputDesc)
    (hskip : ¬ (client.flagsMmapNoIrq = true ∧ a.inputId = client.targetInputId)) :
    (client.source = AUDIO_SOURCE_HOTWORD → a.activeSource ≠ AUDIO_SOURCE_HOTWORD →
      concurrencyConflict client a = some .capture) ∧
    (client.source = AUDIO_SOURCE_HOTWORD → a.activeSource = AUDIO_SOURCE_HOTWORD →
      (concurrencyConflict client a = some .hotword ↔
        client.session ∈ a.preemptedSessions)) ∧
    (client.source ≠ AUDIO_SOURCE_HOTWORD → a.activeSource ≠ AUDIO_SOURCE_HOTWORD →
      concurrencyConflict client a = some .capture) ∧
    (∀ activeInputs f,
      startInputConcurrencyCheck client activeInputs = some f →
      startInputConcurrencyPhase client activeInputs = (.invalidOperation, false)) := by
  have hskip' : (client.flagsMmapNoIrq && a.inputId == client.targetInputId) = false := by
    by_cases hb : client.flagsMmapNoIrq = true
    · simp only [hb, Bool.true_and, beq_eq_false_iff_ne, ne_eq]
      intro he
      exact hskip ⟨hb, he⟩
    · simp [Bool.eq_false_iff.mpr hb]
  refine ⟨?_, ?_, ?_, ?_⟩
  · intro hc ha
    simp [concurrencyConflict, hskip', hc, ha]
  · intro hc ha
    simp only [concurrencyConflict, hskip', Bool.false_eq_true, if_false, hc, ha,
      beq_self_eq_true, if_true]
    constructor
    · intro h
      by_cases hmem : client.session ∈ a.preemptedSessions
      · exact hmem
      · rw [if_neg (by simpa using hmem)] at h
        cases h
    · intro hmem
      rw [if_pos (by simpa using hmem)]
  · intro hc ha
    simp [concurrencyConflict, hskip', hc, ha]
  · intro activeInputs f hf
    simp [startInputConcurrencyPhase, hf]

/-- Witness for C5 (amended): a hotword client (session 7) against a
single active non-hotword capture fails with the CAPTURE flag, and
`startInput` then returns `INVALID_OPERATION` without activating the
client (spec scenario C). -/
theorem startInput_concurrency_rules_witness :
    concurrencyConflict ⟨false, AUDIO_SOURCE_HOTWORD, 7, 1⟩ ⟨2, 1, []⟩ =
      some .capture ∧
    startInputConcurrencyPhase ⟨false, AUDIO_SOURCE_HOTWORD, 7, 1⟩ [⟨2, 1, []⟩] =
      (.invalidOperation, false) := by
  have h := startInput_concurrency_rules ⟨false, AUDIO_SOURCE_HOTWORD, 7, 1⟩
      ⟨2, 1, []⟩ (by simp)
  refine ⟨h.1 rfl (by decide), h.2.2.2 [⟨2, 1, []⟩] .capture ?_⟩
  decide

/-! ## C9: `rescaleVolumeIndex` — round-trip behaviour -/

/-- Per-stream volume-index ranges
(`mVolumeCurves->getVolumeIndexMin/Max`); streams are identified by their
`audio_stream_type_t` value. -/
structure VolumeIndexRanges where
  getVolumeIndexMin : Nat → Int
  getVolumeIndexMax : Nat → Int

/-- `AudioPolicyManager::rescaleVolumeIndex` (lines 5522-5535).  The
source computes `(int)(minDst + ((srcIndex - minSrc) * (maxDst - minDst))
/ (maxSrc - minSrc))` in `float`; the model idealizes the float
arithmetic as exact rationals over the common denominator
`maxSrc - minSrc` and renders the `(int)` cast as truncation toward zero
(`Int.tdiv`), which agrees with the float computation whenever the
intermediate values are exactly representable. -/
def rescaleVolumeIndex (vc : VolumeIndexRanges) (srcIndex : Int)
    (srcStream dstStream : Nat) : Int :=
  if srcStream = dstStream then
    srcIndex
  else
    let minSrc := vc.getVolumeIndexMin srcStream
    let maxSrc := vc.getVolumeIndexMax srcStream
    let minDst := vc.getVolumeIndexMin dstStream
    let maxDst := vc.getVolumeIndexMax dstStream
    Int.tdiv (minDst * (maxSrc - minSrc) + (srcIndex - minSrc) * (maxDst - minDst))
      (maxSrc - minSrc)

/-- Concrete ranges refuting C9 as stated: stream 0 has indexes 0..100,
every other stream has indexes 0..1 — both ranges are valid and
non-degenerate. -/
def rescaleRangesCex : VolumeIndexRanges where
  getVolumeIndexMin := fun _ => 0
  getVolumeIndexMax := fun s => if s = 0 then 100 else 1

/-- Counterexample to claim C9 as stated: rescaling index 49 of stream 0
(range 0..100) to stream 1 (range 0..1) truncates to 0, and mapping back
gives 0 — an error of 49 index steps, far beyond one step per integer
truncation.  The truncation error is amplified by the ratio of the two
ranges, so "at most one index step of error introduced by each integer
truncation" fails whenever the destination range is much coarser than
the source range. -/
theorem rescaleVolumeIndex_roundtrip_cex :
    0 ≤ rescaleRangesCex.getVolumeIndexMin 0 ∧
    rescaleRangesCex.getVolumeIndexMin 0 < rescaleRangesCex.getVolumeIndexMax 0 ∧
    rescaleRangesCex.getVolumeIndexMin 1 < rescaleRangesCex.getVolumeIndexMax 1 ∧
    rescaleRangesCex.getVolumeIndexMin 0 ≤ 49 ∧
    (49 : Int) ≤ rescaleRangesCex.getVolumeIndexMax 0 ∧
    rescaleVolumeIndex rescaleRangesCex
        (rescaleVolumeIndex rescaleRangesCex 49 0 1) 1 0 = 0 ∧
    ¬ ((49 : Int) - 0 ≤ 2) := by
  refine ⟨by decide, by decide, by decide, by decide, by decide, rfl, by decide⟩

/-- Closed form of the non-trivial branch: when the numerator is
non-negative the truncating division coincides with floor division, and
`minDst` splits off. -/
theorem rescaleVolumeIndex_formula (vc : VolumeIndexRanges) (i : Int)
    (A B : Nat) (hAB : A ≠ B)
    (hminDst : 0 ≤ vc.getVolumeIndexMin B)
    (hx : 0 ≤ i - vc.getVolumeIndexMin A)
    (hs : 0 < vc.getVolumeIndexMax A - vc.getVolumeIndexMin A)
    (ht : 0 ≤ vc.getVolumeIndexMax B - vc.getVolumeIndexMin B) :
    rescaleVolumeIndex vc i A B =
      vc.getVolumeIndexMin B +
        (i - vc.getVolumeIndexMin A) *
            (vc.getVolumeIndexMax B - vc.getVolumeIndexMin B) /
          (vc.getVolumeIndexMax A - vc.getVolumeIndexMin A) := by
  unfold rescaleVolumeIndex
  rw [if_neg hAB]
  show Int.tdiv
      (vc.getVolumeIndexMin B * (vc.getVolumeIndexMax A - vc.getVolumeIndexMin A) +
        (i - vc.getVolumeIndexMin A) * (vc.getVolumeIndexMax B - vc.getVolumeIndexMin B))
      (vc.getVolumeIndexMax A - vc.getVolumeIndexMin A) = _
  set minA := vc.getVolumeIndexMin A
  set minB := vc.getVolumeIndexMin B
  set s := vc.getVolumeIndexMax A - vc.getVolumeIndexMin A
  set t := vc.getVolumeIndexMax B - vc.getVolumeIndexMin B
  have hnum : 0 ≤ minB * s + (i - minA) * t :=
    add_nonneg (mul_nonneg hminDst hs.le) (mul_nonneg hx ht)
  rw [Int.tdiv_eq_ediv hnum hs.le]
  have hcomm : minB * s + (i - minA) * t = (i - minA) * t + minB * s := by ring
  rw [hcomm, Int.add_mul_ediv_right _ _ (by omega : s ≠ 0), add_comm]

/-- Claim C9 (amended): `rescaleVolumeIndex(i, A, A) = i` exactly; for
`A ≠ B` with non-degenerate ranges and non-negative minimum indexes the
round trip of a valid index never overshoots, its error scaled by B's
range is below the sum of the two ranges
(`(i - roundtrip) * rangeB < rangeA + rangeB`, i.e. one destination
index step of truncation error amplified by `rangeA / rangeB` plus one),
and in particular when B's range is at least as fine as A's the error is
at most one index step. -/
theorem rescaleVolumeIndex_roundtrip (vc : VolumeIndexRanges)
    (A B : Nat) (i : Int)
    (hAB : A ≠ B)
    (hminA : 0 ≤ vc.getVolumeIndexMin A)
    (hminB : 0 ≤ vc.getVolumeIndexMin B)
    (hrangeA : vc.getVolumeIndexMin A < vc.getVolumeIndexMax A)
    (hrangeB : vc.getVolumeIndexMin B < vc.getVolumeIndexMax B)
    (hlo : vc.getVolumeIndexMin A ≤ i)
    (hhi : i ≤ vc.getVolumeIndexMax A) :
    rescaleVolumeIndex vc i A A = i ∧
    (0 ≤ i - rescaleVolumeIndex vc (rescaleVolumeIndex vc i A B) B A ∧
      (i - rescaleVolumeIndex vc (rescaleVolumeIndex vc i A B) B A) *
          (vc.getVolumeIndexMax B - vc.getVolumeIndexMin B) <
        (vc.getVolumeIndexMax A - vc.getVolumeIndexMin A) +
          (vc.getVolumeIndexMax B - vc.getVolumeIndexMin B)) ∧
    (vc.getVolumeIndexMax A - vc.getVolumeIndexMin A ≤
        vc.getVolumeIndexMax B - vc.getVolumeIndexMin B →
      i - rescaleVolumeIndex vc (rescaleVolumeIndex vc i A B) B A ≤ 1) := by
  have hself : rescaleVolumeIndex vc i A A = i := by
    unfold rescaleVolumeIndex
    rw [if_pos rfl]
  set minA := vc.getVolumeIndexMin A with hminA_def
  set maxA := vc.getVolumeIndexMax A with hmaxA_def
  set minB := vc.getVolumeIndexMin B with hminB_def
  set maxB := vc.getVolumeIndexMax B with hmaxB_def
  have hs : (0 : Int) < maxA - minA := by omega
  have ht : (0 : Int) < maxB - minB := by omega
  set s := maxA - minA with hs_def
  set t := maxB - minB with ht_def
  set x := i - minA with hx_def
  have hx0 : 0 ≤ x := by omega
  have hxs : x ≤ s := by omega
  have hfwd : rescaleVolumeIndex vc i A B = minB + x * t / s :=
    rescaleVolumeIndex_formula vc i A B hAB hminB hx0 hs ht.le
  set y := x * t / s with hy_def
  have hy0 : 0 ≤ y := Int.ediv_nonneg (mul_nonneg hx0 ht.le) hs.le
  have hyt : y ≤ t := by
    have h1 : x * t ≤ s * t := mul_le_mul_of_nonneg_right hxs ht.le
    have h2 : x * t / s ≤ s * t / s := Int.ediv_le_ediv hs h1
    rwa [Int.mul_ediv_cancel_left _ (by omega : s ≠ 0)] at h2
  have hback : rescaleVolumeIndex vc (minB + y) B A = minA + y * s / t := by
    have h := rescaleVolumeIndex_formula vc (minB + y) B A (Ne.symm hAB) hminA
      (by omega) ht hs.le
    simpa using h
  have hk : rescaleVolumeIndex vc (rescaleVolumeIndex vc i A B) B A =
      minA + y * s / t := by
    rw [hfwd, hback]
  have hys_le : y * s ≤ x * t := by
    have := Int.ediv_mul_le (x * t) (by omega : s ≠ 0)
    simpa [hy_def] using this
  have hq_le : y * s / t ≤ x := by
    have h1 : y * s / t ≤ x * t / t := Int.ediv_le_ediv ht hys_le
    rwa [Int.mul_ediv_cancel _ (by omega : t ≠ 0)] at h1
  have herr0 : 0 ≤ i - rescaleVolumeIndex vc (rescaleVolumeIndex vc i A B) B A := by
    rw [hk]
    omega
  have h1 : y * s - t < y * s / t * t := by
    have := Int.lt_ediv_add_one_mul_self (y * s) ht
    nlinarith
  have h2 : x * t - s < y * s := by
    have := Int.lt_ediv_add_one_mul_self (x * t) hs
    nlinarith
  have herr_lt : (i - rescaleVolumeIndex vc (rescaleVolumeIndex vc i A B) B A) * t <
      s + t := by
    rw [hk]
    have hexpand : (i - (minA + y * s / t)) * t = x * t - y * s / t * t := by
      rw [hx_def]; ring
    rw [hexpand]
    omega
  refine ⟨hself, ⟨herr0, herr_lt⟩, ?_⟩
  intro hst
  have h3 : (i - rescaleVolumeIndex vc (rescaleVolumeIndex vc i A B) B A) * t <
      2 * t := by omega
  have h4 : i - rescaleVolumeIndex vc (rescaleVolumeIndex vc i A B) B A < 2 :=
    lt_of_mul_lt_mul_right (by simpa [two_mul] using h3) ht.le
  omega

/-- Equal 0..10 ranges on two streams, for the C9 witness. -/
def rescaleRangesEven : VolumeIndexRanges where
  getVolumeIndexMin := fun _ => 0
  getVolumeIndexMax := fun _ => 10

/-- Witness for C9 (amended): with both ranges 0..10 the round trip of
index 7 through streams 0 and 1 is exact within one step, and the
same-stream rescale is the identity. -/
theorem rescaleVolumeIndex_roundtrip_witness :
    rescaleVolumeIndex rescaleRangesEven 7 0 0 = 7 ∧
    0 ≤ (7 : Int) -
      rescaleVolumeIndex rescaleRangesEven
        (rescaleVolumeIndex rescaleRangesEven 7 0 1) 1 0 ∧
    (7 : Int) - rescaleVolumeIndex rescaleRangesEven
        (rescaleVolumeIndex rescaleRangesEven 7 0 1) 1 0 ≤ 1 := by
  have h := rescaleVolumeIndex_roundtrip rescaleRangesEven 0 1 7 (by decide)
    (by decide) (by decide) (by decide) (by decide) (by decide) (by decide)
  exact ⟨h.1, h.2.1.1, h.2.2 (by decide)⟩

/-! ## C6: `checkDeviceMuteStrategies` — temporary mute on device change -/

/-- What `checkDeviceMuteStrategies` (lines 5070-5153) reads from one
output descriptor: identity (`ioId`), `isDuplicated()`, `isActive()`,
`device()`, `supportedDevices()`, `latency()`, the per-strategy
`mStrategyMutedByDevice` flags, and `isStrategyActive(desc, s)` per
strategy. -/
structure MuteOutput where
  ioId : Nat
  isDuplicated : Bool
  isActive : Bool
  device : Nat
  supportedDevices : Nat
  latency : Nat
  strategyMutedByDevice : RoutingStrategy → Bool
  strategyActive : RoutingStrategy → Bool

/-- One `setStrategyMute(strategy, mute, desc, delayMs)` call recorded as
an event: which strategy, mute or unmute, the target output's id, and the
delay passed. -/
structure MuteCmd where
  strategy : RoutingStrategy
  mute : Bool
  target : Nat
  delayMs : Nat
  deriving DecidableEq, Repr

/-- Environment of `checkDeviceMuteStrategies`: the engine's
`getDeviceForStrategy(s, false)` and the `mOutputs` collection iterated
by the first loop. -/
structure MuteEnv where
  deviceForStrategy : RoutingStrategy → Nat
  outputs : List MuteOutput

/-- Body of the first loop of `checkDeviceMuteStrategies` for one
strategy: compute the strategy's current device filtered to the output's
supported set, decide whether the strategy must be muted
(`shouldMute && (curDevice & device) && (curDevice != device)`), and on a
state toggle emit a `setStrategyMute` on every output sharing a supported
device, raising the mute wait to twice the latency of each such output
on which the strategy is active (when muting).  The accumulator carries
the `mStrategyMutedByDevice` flags, the emitted events and `muteWaitMs`. -/
def cdmsStrategyStep (env : MuteEnv) (outputDesc : MuteOutput)
    (shouldMute : Bool) (delayMs : Nat)
    (acc : (RoutingStrategy → Bool) × List MuteCmd × Nat) (s : RoutingStrategy) :
    (RoutingStrategy → Bool) × List MuteCmd × Nat :=
  let mutedBy := acc.1
  let curDevice := Nat.land (env.deviceForStrategy s) outputDesc.supportedDevices
  let mute := shouldMute && (Nat.land curDevice outputDesc.device != 0) &&
    (curDevice != outputDesc.device)
  let doMute := (mute && !(mutedBy s)) || (!mute && mutedBy s)
  if doMute then
    let mutedBy' := fun u => if u = s then mute else mutedBy u
    let inner := env.outputs.foldl (fun (a : List MuteCmd × Nat) desc =>
      if Nat.land desc.supportedDevices outputDesc.supportedDevices = 0 then a
      else
        let evs := a.1 ++ [⟨s, mute, desc.ioId, if mute then 0 else delayMs⟩]
        let w := if desc.strategyActive s then
            if mute then
              if a.2 < desc.latency * 2 then desc.latency * 2 else a.2
            else a.2
          else a.2
        (evs, w)) (acc.2.1, acc.2.2)
    (mutedBy', inner.1, inner.2)
  else acc

/-- The first loop of `checkDeviceMuteStrategies` over all strategies. -/
def cdmsPhase1 (env : MuteEnv) (outputDesc : MuteOutput)
    (shouldMute : Bool) (delayMs : Nat) :
    (RoutingStrategy → Bool) × List MuteCmd × Nat :=
  allStrategies.foldl (cdmsStrategyStep env outputDesc shouldMute delayMs)
    (outputDesc.strategyMutedByDevice, [], 0)

/-- The temporary-mute loop of `checkDeviceMuteStrategies` (lines
5135-5143): every strategy active on the changed output is muted at
`delayMs` and scheduled to unmute at `delayMs + tempMuteDurationMs`. -/
def cdmsTempMuteEvents (outputDesc : MuteOutput) (delayMs dur : Nat) :
    List MuteCmd :=
  allStrategies.foldl (fun acc s =>
    if outputDesc.strategyActive s then
      acc ++ [⟨s, true, outputDesc.ioId, delayMs⟩,
              ⟨s, false, outputDesc.ioId, delayMs + dur⟩]
    else acc) []

/-- Result of `checkDeviceMuteStrategies`: the updated descriptor, the
`setStrategyMute` events issued, the final `muteWaitMs`, and the value
returned to the caller. -/
structure CdmsResult where
  desc : MuteOutput
  events : List MuteCmd
  muteWait : Nat
  returnedWait : Nat

/-- `AudioPolicyManager::checkDeviceMuteStrategies` (lines 5070-5153):
a duplicated output returns 0 immediately; otherwise the per-strategy
incompatible-device loop runs, then — when the output is active and its
stored device differs from `prevDevice` — the temporary mute is applied
with `tempMuteWaitMs = latency * 2` and `tempMuteDurationMs =
latency * 4`; the function returns `muteWaitMs - delayMs` when positive
(after sleeping that long) and 0 otherwise. -/
def checkDeviceMuteStrategies (env : MuteEnv) (outputDesc : MuteOutput)
    (prevDevice delayMs : Nat) : CdmsResult :=
  if outputDesc.isDuplicated then ⟨outputDesc, [], 0, 0⟩
  else
    let shouldMute := outputDesc.isActive && decide (2 ≤ popcount outputDesc.device)
    let p1 := cdmsPhase1 env outputDesc shouldMute delayMs
    let tempMuteWaitMs := outputDesc.latency * 2
    let tempMuteDurationMs := outputDesc.latency * 4
    let doTemp := outputDesc.isActive && outputDesc.device != prevDevice
    let muteWait2 := if doTemp then
        (if p1.2.2 < tempMuteWaitMs then tempMuteWaitMs else p1.2.2)
      else p1.2.2
    let evs2 := if doTemp then cdmsTempMuteEvents outputDesc delayMs tempMuteDurationMs
      else []
    ⟨{ outputDesc with strategyMutedByDevice := p1.1 }, p1.2.1 ++ evs2, muteWait2,
      if delayMs < muteWait2 then muteWait2 - delayMs else 0⟩

/-- Folding an append-if over a list collects the appended blocks of the
elements satisfying the test, in order. -/
theorem foldl_append_pairs {α β : Type} (p : α → Bool) (f : α → List β)
    (l : List α) (acc : List β) :
    l.foldl (fun a s => if p s then a ++ f s else a) acc =
      acc ++ (l.filter p).flatMap f := by
  induction l generalizing acc with
  | nil => simp
  | cons s rest ih =>
    by_cases hp : p s
    · simp [hp, ih, List.filter_cons, List.flatMap_cons]
    · simp [hp, ih, List.filter_cons]

/-- The block of any member embeds in order into the flattened list. -/
theorem sublist_flatMap_of_mem {α β : Type} (f : α → List β) {x : α} {l : List α}
    (h : x ∈ l) : List.Sublist (f x) (l.flatMap f) := by
  induction l with
  | nil => cases h
  | cons a rest ih =>
    rcases List.mem_cons.mp h with rfl | hm
    · rw [List.flatMap_cons]
      exact List.sublist_append_left (f x) (rest.flatMap f)
    · rw [List.flatMap_cons]
      exact (ih hm).trans (List.sublist_append_right _ _)

/-- Every strategy is in the enumeration list. -/
theorem mem_allStrategies (s : RoutingStrategy) : s ∈ allStrategies := by
  cases s <;> simp [allStrategies]

/-- Evaluation of `checkDeviceMuteStrategies` on a non-duplicated,
active output whose device changed. -/
theorem cdms_run (env : MuteEnv) (outputDesc : MuteOutput)
    (prevDevice delayMs : Nat)
    (hdup : outputDesc.isDuplicated = false)
    (hact : outputDesc.isActive = true)
    (hdev : outputDesc.device ≠ prevDevice) :
    checkDeviceMuteStrategies env outputDesc prevDevice delayMs =
      ⟨{ outputDesc with strategyMutedByDevice :=
          (cdmsPhase1 env outputDesc
            (outputDesc.isActive && decide (2 ≤ popcount outputDesc.device)) delayMs).1 },
        (cdmsPhase1 env outputDesc
          (outputDesc.isActive && decide (2 ≤ popcount outputDesc.device)) delayMs).2.1 ++
          cdmsTempMuteEvents outputDesc delayMs (outputDesc.latency * 4),
        (if (cdmsPhase1 env outputDesc
              (outputDesc.isActive && decide (2 ≤ popcount outputDesc.device))
              delayMs).2.2 < outputDesc.latency * 2 then outputDesc.latency * 2
          else (cdmsPhase1 env outputDesc
            (outputDesc.isActive && decide (2 ≤ popcount outputDesc.device)) delayMs).2.2),
        (if delayMs < (if (cdmsPhase1 env outputDesc
              (outputDesc.isActive && decide (2 ≤ popcount outputDesc.device))
              delayMs).2.2 < outputDesc.latency * 2 then outputDesc.latency * 2
            else (cdmsPhase1 env outputDesc
              (outputDesc.isActive && decide (2 ≤ popcount outputDesc.device)) delayMs).2.2)
          then (if (cdmsPhase1 env outputDesc
              (outputDesc.isActive && decide (2 ≤ popcount outputDesc.device))
              delayMs).2.2 < outputDesc.latency * 2 then outputDesc.latency * 2
            else (cdmsPhase1 env outputDesc
              (outputDesc.isActive && decide (2 ≤ popcount outputDesc.device))
              delayMs).2.2) - delayMs
          else 0)⟩ := by
  have hdoTemp : (outputDesc.isActive && outputDesc.device != prevDevice) = true := by
    simp [hact, hdev]
  unfold checkDeviceMuteStrategies
  rw [if_neg (by simp [hdup])]
  simp only [hdoTemp, if_true]

/-- Claim C6: on a non-duplicated active output whose stored device
differs from the previous device, every strategy active on the output is
muted and then scheduled to unmute with an extra delay of four times the
output's latency, the mute wait is raised to at least twice the latency,
and the function returns the mute wait minus the caller's delay when
positive and zero otherwise. -/
theorem checkDeviceMuteStrategies_temp_mute (env : MuteEnv)
    (outputDesc : MuteOutput) (prevDevice delayMs : Nat)
    (hdup : outputDesc.isDuplicated = false)
    (hact : outputDesc.isActive = true)
    (hdev : outputDesc.device ≠ prevDevice) :
    (∀ s, outputDesc.strategyActive s = true →
      List.Sublist
        [⟨s, true, outputDesc.ioId, delayMs⟩,
         ⟨s, false, outputDesc.ioId, delayMs + outputDesc.latency * 4⟩]
        (checkDeviceMuteStrategies env outputDesc prevDevice delayMs).events) ∧
    outputDesc.latency * 2 ≤
      (checkDeviceMuteStrategies env outputDesc prevDevice delayMs).muteWait ∧
    (checkDeviceMuteStrategies env outputDesc prevDevice delayMs).returnedWait =
      (if delayMs <
          (checkDeviceMuteStrategies env outputDesc prevDevice delayMs).muteWait
        then (checkDeviceMuteStrategies env outputDesc prevDevice delayMs).muteWait -
          delayMs
        else 0) := by
  rw [cdms_run env outputDesc prevDevice delayMs hdup hact hdev]
  refine ⟨?_, ?_, rfl⟩
  · intro s hs
    have hpair : List.Sublist
        [⟨s, true, outputDesc.ioId, delayMs⟩,
         ⟨s, false, outputDesc.ioId, delayMs + outputDesc.latency * 4⟩]
        (cdmsTempMuteEvents outputDesc delayMs (outputDesc.latency * 4)) := by
      unfold cdmsTempMuteEvents
      rw [foldl_append_pairs (fun s => outputDesc.strategyActive s)
        (fun s => ([⟨s, true, outputDesc.ioId, delayMs⟩,
                    ⟨s, false, outputDesc.ioId, delayMs + outputDesc.latency * 4⟩] :
          List MuteCmd))]
      rw [List.nil_append]
      exact sublist_flatMap_of_mem
        (fun s => ([⟨s, true, outputDesc.ioId, delayMs⟩,
                    ⟨s, false, outputDesc.ioId, delayMs + outputDesc.latency * 4⟩] :
          List MuteCmd))
        (List.mem_filter.mpr ⟨mem_allStrategies s, hs⟩)
    show List.Sublist _ (_ ++ cdmsTempMuteEvents outputDesc delayMs (outputDesc.latency * 4))
    exact hpair.trans (List.sublist_append_right _ _)
  · show outputDesc.latency * 2 ≤
      (if (cdmsPhase1 env outputDesc
            (outputDesc.isActive && decide (2 ≤ popcount outputDesc.device))
            delayMs).2.2 < outputDesc.latency * 2 then outputDesc.latency * 2
        else (cdmsPhase1 env outputDesc
          (outputDesc.isActive && decide (2 ≤ popcount outputDesc.device)) delayMs).2.2)
    split <;> omega

/-- Environment for the C6 witness: no other outputs, engine maps every
strategy to no device. -/
def cdmsEnvW : MuteEnv := ⟨fun _ => 0, []⟩

/-- Output for the C6 witness: non-duplicated, active, device 1,
supported 3, latency 10, only MEDIA active. -/
def cdmsOutW : MuteOutput :=
  ⟨1, false, true, 1, 3, 10, fun _ => false, fun s => s == RoutingStrategy.media⟩

/-- Witness for C6: with latency 10 and delay 5, the active MEDIA
strategy is muted at delay 5 and unmuted at delay 5 + 40, and the mute
wait reaches at least 20. -/
theorem checkDeviceMuteStrategies_temp_mute_witness :
    cdmsOutW.isDuplicated = false ∧ cdmsOutW.isActive = true ∧
    cdmsOutW.device ≠ 2 ∧
    List.Sublist
      [⟨RoutingStrategy.media, true, 1, 5⟩,
       ⟨RoutingStrategy.media, false, 1, 5 + 10 * 4⟩]
      (checkDeviceMuteStrategies cdmsEnvW cdmsOutW 2 5).events ∧
    10 * 2 ≤ (checkDeviceMuteStrategies cdmsEnvW cdmsOutW 2 5).muteWait := by
  have h := checkDeviceMuteStrategies_temp_mute cdmsEnvW cdmsOutW 2 5 rfl rfl
    (by decide)
  exact ⟨rfl, rfl, by decide, h.1 RoutingStrategy.media rfl, h.2.1⟩

/-! ## C8: `selectOutput` — candidate selection among open outputs -/

/-- `AUDIO_OUTPUT_FLAG_DIRECT` bit of `audio_output_flags_t`. -/
def AUDIO_OUTPUT_FLAG_DIRECT : Nat := 1
/-- `AUDIO_OUTPUT_FLAG_PRIMARY` bit of `audio_output_flags_t`. -/
def AUDIO_OUTPUT_FLAG_PRIMARY : Nat := 2
/-- `AUDIO_FORMAT_INVALID` (`0xFFFFFFFFu` as an unsigned value). -/
def AUDIO_FORMAT_INVALID : Nat := 0xFFFFFFFF

/-- What `selectOutput` (lines 1234-1311) reads from one candidate
output descriptor (`mOutputs.valueFor(output)`): the io handle, whether
it is duplicated, its `mFlags` (for the DIRECT bit), its current
`mFormat`, and its profile's flags `mProfile->getFlags()`. -/
structure OutputCandidate where
  ioHandle : Nat
  isDuplicated : Bool
  mFlags : Nat
  mFormat : Nat
  profileFlags : Nat
  deriving DecidableEq, Repr

/-- External format helpers consumed by `selectOutput` as black boxes:
`audio_is_linear_pcm` and `AudioPort::isBetterFormatMatch(newFormat,
currentFormat, targetFormat)` (both defined outside this file's
source). -/
structure FormatOracle where
  isLinearPcm : Nat → Bool
  isBetterFormatMatch : Nat → Nat → Nat → Bool

/-- The running state of `selectOutput`'s loop: `maxCommonFlags`,
`outputForFlags`, `outputForPrimary`, `outputForFormat`, `bestFormat`
and `bestFormatForFlags` (handles use 0 = `AUDIO_IO_HANDLE_NONE`). -/
structure SelState where
  maxCommonFlags : Nat
  outputForFlags : Nat
  outputForPrimary : Nat
  outputForFormat : Nat
  bestFormat : Nat
  bestFormatForFlags : Nat
  deriving DecidableEq, Repr

/-- Initial loop state of `selectOutput`. -/
def selInit : SelState :=
  ⟨0, 0, 0, 0, AUDIO_FORMAT_INVALID, AUDIO_FORMAT_INVALID⟩

/-- `popcount(outputDesc->mProfile->getFlags() & flags)` — the number of
requested flags shared with the candidate's profile. -/
def commonFlagsOf (flags : Nat) (o : OutputCandidate) : Nat :=
  popcount (Nat.land o.profileFlags flags)

/-- A candidate takes part in the selection when it is not duplicated,
not direct, and — when a valid format is requested — that format is
linear PCM (otherwise the loop `continue`s past it). -/
def selConsidered (fo : FormatOracle) (format : Nat) (o : OutputCandidate) : Bool :=
  !o.isDuplicated && (Nat.land o.mFlags AUDIO_OUTPUT_FLAG_DIRECT == 0) &&
    (format == AUDIO_FORMAT_INVALID || fo.isLinearPcm format)

/-- Format-match update of the loop body (lines 1266-1276). -/
def selFormatUpdate (fo : FormatOracle) (format : Nat) (st : SelState)
    (o : OutputCandidate) : SelState :=
  if format != AUDIO_FORMAT_INVALID &&
      fo.isBetterFormatMatch o.mFormat st.bestFormat format then
    { st with outputForFormat := o.ioHandle, bestFormat := o.mFormat }
  else st

/-- Common-flags update of the loop body (lines 1278-1293):
`commonFlags >= maxCommonFlags` admits the candidate, a tie is broken by
a closer format match, a strictly larger count replaces the leader. -/
def selFlagsUpdate (fo : FormatOracle) (flags format : Nat) (st : SelState)
    (o : OutputCandidate) : SelState :=
  if st.maxCommonFlags ≤ commonFlagsOf flags o then
    if commonFlagsOf flags o = st.maxCommonFlags then
      if format != AUDIO_FORMAT_INVALID &&
          fo.isBetterFormatMatch o.mFormat st.bestFormatForFlags format then
        { st with outputForFlags := o.ioHandle, bestFormatForFlags := o.mFormat }
      else st
    else
      { st with
          outputForFlags := o.ioHandle
          maxCommonFlags := commonFlagsOf flags o
          bestFormatForFlags := o.mFormat }
  else st

/-- Primary-output update of the loop body (lines 1294-1296). -/
def selPrimaryUpdate (st : SelState) (o : OutputCandidate) : SelState :=
  if Nat.land o.profileFlags AUDIO_OUTPUT_FLAG_PRIMARY != 0 then
    { st with outputForPrimary := o.ioHandle }
  else st

/-- One iteration of `selectOutput`'s loop, with the `continue`s of the
source rendered as early identity branches. -/
def selectOutputStep (fo : FormatOracle) (flags format : Nat) (st : SelState)
    (o : OutputCandidate) : SelState :=
  if o.isDuplicated then st
  else if Nat.land o.mFlags AUDIO_OUTPUT_FLAG_DIRECT != 0 then st
  else if format != AUDIO_FORMAT_INVALID && !(fo.isLinearPcm format) then st
  else
    selPrimaryUpdate
      (selFlagsUpdate fo flags format (selFormatUpdate fo format st o) o) o

/-- The whole loop of `selectOutput` over the candidate list. -/
def selScan (fo : FormatOracle) (flags format : Nat)
    (outputs : List OutputCandidate) : SelState :=
  outputs.foldl (selectOutputStep fo flags format) selInit

/-- `AudioPolicyManager::selectOutput` (lines 1234-1311): empty list
gives `AUDIO_IO_HANDLE_NONE`, a single candidate is returned as is, and
otherwise the loop runs and the cascade outputForFlags → outputForFormat
→ outputForPrimary → first candidate decides. -/
def selectOutput (fo : FormatOracle) (outputs : List OutputCandidate)
    (flags format : Nat) : Nat :=
  match outputs with
  | [] => 0
  | o :: rest =>
    if rest.isEmpty then o.ioHandle
    else
      if (selScan fo flags format (o :: rest)).outputForFlags != 0 then
        (selScan fo flags format (o :: rest)).outputForFlags
      else if (selScan fo flags format (o :: rest)).outputForFormat != 0 then
        (selScan fo flags format (o :: rest)).outputForFormat
      else if (selScan fo flags format (o :: rest)).outputForPrimary != 0 then
        (selScan fo flags format (o :: rest)).outputForPrimary
      else o.ioHandle

/-- The format-match update never touches the flags-selection fields. -/
theorem selFormatUpdate_flags_fields (fo : FormatOracle) (format : Nat)
    (st : SelState) (o : OutputCandidate) :
    (selFormatUpdate fo format st o).outputForFlags = st.outputForFlags ∧
    (selFormatUpdate fo format st o).maxCommonFlags = st.maxCommonFlags := by
  unfold selFormatUpdate
  split <;> exact ⟨rfl, rfl⟩

/-- The primary update never touches the flags-selection fields. -/
theorem selPrimaryUpdate_flags_fields (st : SelState) (o : OutputCandidate) :
    (selPrimaryUpdate st o).outputForFlags = st.outputForFlags ∧
    (selPrimaryUpdate st o).maxCommonFlags = st.maxCommonFlags := by
  unfold selPrimaryUpdate
  split <;> exact ⟨rfl, rfl⟩

/-- The flags update never lowers `maxCommonFlags`, either keeps the
leader or installs the present candidate with its own flag count, and
ends with the candidate's count not above the maximum. -/
theorem selFlagsUpdate_rel (fo : FormatOracle) (flags format : Nat)
    (st : SelState) (o : OutputCandidate) :
    st.maxCommonFlags ≤ (selFlagsUpdate fo flags format st o).maxCommonFlags ∧
    (((selFlagsUpdate fo flags format st o).outputForFlags = st.outputForFlags ∧
        (selFlagsUpdate fo flags format st o).maxCommonFlags = st.maxCommonFlags) ∨
      ((selFlagsUpdate fo flags format st o).outputForFlags = o.ioHandle ∧
        (selFlagsUpdate fo flags format st o).maxCommonFlags =
          commonFlagsOf flags o)) ∧
    commonFlagsOf flags o ≤ (selFlagsUpdate fo flags format st o).maxCommonFlags := by
  unfold selFlagsUpdate
  split_ifs with h1 h2 h3
  · exact ⟨le_refl _, Or.inr ⟨rfl, h2.symm⟩, le_of_eq h2⟩
  · exact ⟨le_refl _, Or.inl ⟨rfl, rfl⟩, le_of_eq h2⟩
  · exact ⟨h1, Or.inr ⟨rfl, rfl⟩, le_refl _⟩
  · exact ⟨le_refl _, Or.inl ⟨rfl, rfl⟩, le_of_not_le h1⟩

/-- The step invariant: a skipped candidate changes nothing and is not
considered; a considered candidate either leaves the leader or becomes
it, and its flag count never exceeds the new maximum. -/
theorem selectOutputStep_rel (fo : FormatOracle) (flags format : Nat)
    (st : SelState) (o : OutputCandidate) :
    st.maxCommonFlags ≤ (selectOutputStep fo flags format st o).maxCommonFlags ∧
    (((selectOutputStep fo flags format st o).outputForFlags = st.outputForFlags ∧
        (selectOutputStep fo flags format st o).maxCommonFlags =
          st.maxCommonFlags) ∨
      (selConsidered fo format o = true ∧
        (selectOutputStep fo flags format st o).outputForFlags = o.ioHandle ∧
        (selectOutputStep fo flags format st o).maxCommonFlags =
          commonFlagsOf flags o)) ∧
    (selConsidered fo format o = true →
      commonFlagsOf flags o ≤
        (selectOutputStep fo flags format st o).maxCommonFlags) := by
  unfold selectOutputStep
  split_ifs with hdup hdir hfmt
  · refine ⟨le_refl _, Or.inl ⟨rfl, rfl⟩, fun hc => ?_⟩
    simp [selConsidered, hdup] at hc
  · refine ⟨le_refl _, Or.inl ⟨rfl, rfl⟩, fun hc => ?_⟩
    have hdir' : Nat.land o.mFlags AUDIO_OUTPUT_FLAG_DIRECT ≠ 0 := by
      simpa using hdir
    simp [selConsidered, hdup, hdir'] at hc
  · refine ⟨le_refl _, Or.inl ⟨rfl, rfl⟩, fun hc => ?_⟩
    rcases Bool.and_eq_true_iff.mp hfmt with ⟨hf1, hf2⟩
    have hf1' : format ≠ AUDIO_FORMAT_INVALID := by simpa using hf1
    have hf2' : fo.isLinearPcm format = false := by
      simpa using hf2
    simp [selConsidered, hdup, hf1', hf2'] at hc
  · have hcons : selConsidered fo format o = true := by
      have hdir' : Nat.land o.mFlags AUDIO_OUTPUT_FLAG_DIRECT = 0 := by
        simpa using hdir
      have hfmt' : format = AUDIO_FORMAT_INVALID ∨ fo.isLinearPcm format = true := by
        by_cases hfi : format = AUDIO_FORMAT_INVALID
        · exact Or.inl hfi
        · right
          by_contra hnl
          exact hfmt (by simp [hfi, Bool.eq_false_iff.mpr hnl])
      rcases hfmt' with hfi | hlin
      · simp [selConsidered, hdup, hdir', hfi]
      · simp [selConsidered, hdup, hdir', hlin]
    have hfu := selFormatUpdate_flags_fields fo format st o
    have hflu := selFlagsUpdate_rel fo flags format
      (selFormatUpdate fo format st o) o
    have hpu := selPrimaryUpdate_flags_fields
      (selFlagsUpdate fo flags format (selFormatUpdate fo format st o) o) o
    refine ⟨?_, ?_, ?_⟩
    · rw [hpu.2]
      exact le_trans (le_of_eq hfu.2.symm) hflu.1
    · rcases hflu.2.1 with ⟨ha, hb⟩ | ⟨ha, hb⟩
      · exact Or.inl ⟨by rw [hpu.1, ha, hfu.1], by rw [hpu.2, hb, hfu.2]⟩
      · exact Or.inr ⟨hcons, by rw [hpu.1, ha], by rw [hpu.2, hb]⟩
    · intro _
      rw [hpu.2]
      exact hflu.2.2

/-- Loop invariant of the scan, by induction over the candidate list. -/
theorem selScan_foldl_rel (fo : FormatOracle) (flags format : Nat)
    (l : List OutputCandidate) (st0 : SelState) :
    st0.maxCommonFlags ≤
      (l.foldl (selectOutputStep fo flags format) st0).maxCommonFlags ∧
    (((l.foldl (selectOutputStep fo flags format) st0).outputForFlags =
          st0.outputForFlags ∧
        (l.foldl (selectOutputStep fo flags format) st0).maxCommonFlags =
          st0.maxCommonFlags) ∨
      (∃ c ∈ l, selConsidered fo format c = true ∧
        (l.foldl (selectOutputStep fo flags format) st0).outputForFlags =
          c.ioHandle ∧
        (l.foldl (selectOutputStep fo flags format) st0).maxCommonFlags =
          commonFlagsOf flags c)) ∧
    (∀ c ∈ l, selConsidered fo format c = true →
      commonFlagsOf flags c ≤
        (l.foldl (selectOutputStep fo flags format) st0).maxCommonFlags) := by
  induction l generalizing st0 with
  | nil => simp
  | cons o rest ih =>
    have hstep := selectOutputStep_rel fo flags format st0 o
    have hrest := ih (selectOutputStep fo flags format st0 o)
    rw [List.foldl_cons]
    refine ⟨le_trans hstep.1 hrest.1, ?_, ?_⟩
    · rcases hrest.2.1 with ⟨hof, hmax⟩ | ⟨c, hc, hcons, hof, hmax⟩
      · rcases hstep.2.1 with ⟨hof0, hmax0⟩ | ⟨hcons0, hof0, hmax0⟩
        · exact Or.inl ⟨hof.trans hof0, hmax.trans hmax0⟩
        · exact Or.inr ⟨o, List.mem_cons_self o rest, hcons0,
            hof.trans hof0, hmax.trans hmax0⟩
      · exact Or.inr ⟨c, List.mem_cons_of_mem o hc, hcons, hof, hmax⟩
    · intro c hc hcons
      rcases List.mem_cons.mp hc with rfl | hm
      · exact le_trans (hstep.2.2 hcons) hrest.1
      · exact hrest.2.2 c hm hcons

/-- Claim C8: `selectOutput` returns the single element of a singleton
list; with several candidates it follows the cascade flags-winner →
closest-format candidate → primary output → first candidate, and
whenever a flags-winner exists it is a considered candidate whose
profile shares a maximal number of the requested flags among all
considered candidates (ties broken by closest format match inside the
scan). -/
theorem selectOutput_spec (fo : FormatOracle) (flags format : Nat) :
    (∀ o : OutputCandidate, selectOutput fo [o] flags format = o.ioHandle) ∧
    (∀ (o o2 : OutputCandidate) (rest : List OutputCandidate),
      selectOutput fo (o :: o2 :: rest) flags format =
        (if (selScan fo flags format (o :: o2 :: rest)).outputForFlags != 0 then
          (selScan fo flags format (o :: o2 :: rest)).outputForFlags
        else if (selScan fo flags format (o :: o2 :: rest)).outputForFormat != 0 then
          (selScan fo flags format (o :: o2 :: rest)).outputForFormat
        else if (selScan fo flags format (o :: o2 :: rest)).outputForPrimary != 0 then
          (selScan fo flags format (o :: o2 :: rest)).outputForPrimary
        else o.ioHandle) ∧
      ((selScan fo flags format (o :: o2 :: rest)).outputForFlags ≠ 0 →
        ∃ c ∈ o :: o2 :: rest, selConsidered fo format c = true ∧
          (selScan fo flags format (o :: o2 :: rest)).outputForFlags = c.ioHandle ∧
          ∀ c' ∈ o :: o2 :: rest, selConsidered fo format c' = true →
            commonFlagsOf flags c' ≤ commonFlagsOf flags c)) := by
  constructor
  · intro o
    rfl
  · intro o o2 rest
    constructor
    · rfl
    · intro hne
      have h := selScan_foldl_rel fo flags format (o :: o2 :: rest) selInit
      rcases h.2.1 with ⟨hof, _⟩ | ⟨c, hc, hcons, hof, hmax⟩
      · exact absurd hof hne
      · refine ⟨c, hc, hcons, hof, ?_⟩
        intro c' hc' hcons'
        have := h.2.2 c' hc' hcons'
        omega

/-- Format oracle for the C8 witness (format is invalid in the witness,
so the oracle is never consulted). -/
def selFoW : FormatOracle := ⟨fun _ => true, fun _ _ _ => false⟩

/-- First witness candidate: handle 1, mixable, profile flags `0b1000`. -/
def selO1W : OutputCandidate := ⟨1, false, 0, 3, 8⟩

/-- Second witness candidate: handle 2, mixable, profile flags `0b1100`,
sharing two of the requested flags `0b1100`. -/
def selO2W : OutputCandidate := ⟨2, false, 0, 3, 12⟩

/-- Witness for C8: a singleton list returns its only element, and with
two candidates and requested flags `0b1100` the candidate sharing two
flags beats the one sharing one. -/
theorem selectOutput_spec_witness :
    selectOutput selFoW [selO1W] 12 AUDIO_FORMAT_INVALID = 1 ∧
    selectOutput selFoW [selO1W, selO2W] 12 AUDIO_FORMAT_INVALID = 2 ∧
    commonFlagsOf 12 selO1W ≤ commonFlagsOf 12 selO2W := by
  have h := selectOutput_spec selFoW 12 AUDIO_FORMAT_INVALID
  refine ⟨h.1 selO1W, ?_, by decide⟩
  exact (h.2 selO1W selO2W []).1.trans (by decide)
